import Mathlib

/-!
Verification development for `10kticketstat` (src/index.js): a CLI tool that
downloads paginated time entries from the 10000ft API, recovering from 429
throttling responses, then aggregates hours per ticket identifier matched in
each entry's notes and writes a CSV report.

The JavaScript source is shallowly embedded below.  JS numbers appearing in
the relevant code paths (hours, rate-limit fields) are modelled as `ℚ`
(all the concrete values involved are small integers or exact decimals);
NaN / undefined are modelled with `Option` / an explicit `JsValue.undefined`.
JS strings are modelled as `String`, with the string primitives the program
uses (`split`, `trim`, `replace` with a character class) implemented over
the underlying character lists so that they compute.  External effects
(HTTP fetching, the system clock, `fs.stat`, sleeping) are modelled at
their interface boundary: the fetch loop consumes a script of page results,
and sleeps are recorded rather than performed.
-/

namespace TenK

/-- One remote time-entry record (the items of the response `data` array in
src/index.js): `hours` is a number, `notes` is free text that may be absent
(`undefined`). -/
structure TimeEntry where
  hours : ℚ
  notes : Option String
  deriving DecidableEq, Repr

/-- A JS value as stored by the reducer of `parse10KResponseHeader`: a
number, a string, or `undefined` (when a fragment has no `=>`-separated
value). -/
inductive JsValue where
  | num (q : ℚ)
  | str (s : String)
  | undefined
  deriving DecidableEq, Repr

/-- Character class `[0-9]`. -/
def isDigitChar (c : Char) : Bool := '0' ≤ c && c ≤ '9'

/-- Character class `[A-Z]`. -/
def isUpperChar (c : Char) : Bool := 'A' ≤ c && c ≤ 'Z'

/-- JS whitespace as relevant to `Number`'s trimming. -/
def isWhiteChar (c : Char) : Bool := c = ' ' || c = '\t' || c = '\n' || c = '\r'

/-- Split a character list on the two-character separator `a, b`, JS
`String.prototype.split` style: non-overlapping left-to-right matches,
empty pieces preserved, a trailing separator yielding a final empty piece.
(The program only ever splits on the two-character separators `", "` and
`"=>"`.)  `current` holds the piece under construction, reversed. -/
def split2 (a b : Char) : List Char → List Char → List (List Char)
  | [], current => [current.reverse]
  | [c], current => [(c :: current).reverse]
  | c1 :: c2 :: cs, current =>
    if c1 = a && c2 = b then
      current.reverse :: split2 a b cs []
    else
      split2 a b (c2 :: cs) (c1 :: current)

/-- JS `s.split(sep)` for the two-character separator `⟨a, b⟩`. -/
def jsSplit (s : String) (a b : Char) : List String :=
  (split2 a b s.data []).map List.asString

/-- Numeric value of a run of decimal digit characters. -/
def digitsToNat (ds : List Char) : Nat :=
  ds.foldl (fun n c => 10 * n + (c.toNat - 48)) 0

/-- Parse an unsigned JS decimal literal `digits [ "." digits ]` (at least
one digit in total, as in `"60"`, `"1.5"`, `".5"`, `"5."`).  Returns `none`
for anything else. -/
def parseDecimal (cs : List Char) : Option ℚ :=
  let intPart := cs.takeWhile isDigitChar
  let rest := cs.dropWhile isDigitChar
  match rest with
  | [] => if intPart.isEmpty then none else some (digitsToNat intPart)
  | '.' :: frac =>
    if frac.all isDigitChar && !(intPart.isEmpty && frac.isEmpty) then
      some ((digitsToNat intPart : ℚ) + (digitsToNat frac : ℚ) / (10 ^ frac.length))
    else none
  | _ => none

/-- JS `Number(value)` restricted to the value shapes this program feeds it:
`undefined ↦ NaN` (modelled `none`), and strings that are optionally signed
decimal literals after trimming; the empty/whitespace string is `0`.
Exotic numeric syntaxes (hex, exponents, `Infinity`) never arise from the
`x-ratelimit-data` header and map to `none` (NaN). -/
def jsNumber : Option String → Option ℚ
  | none => none
  | some s =>
    match (s.data.dropWhile isWhiteChar).reverse.dropWhile isWhiteChar |>.reverse with
    | [] => some 0
    | '-' :: cs => (parseDecimal cs).map (fun q => -q)
    | '+' :: cs => parseDecimal cs
    | cs => parseDecimal cs

/-- JS property assignment `accumulator[key] = v` on an object modelled as
an insertion-ordered association list: overwrite the existing key in place,
else append. -/
def objSet : List (String × JsValue) → String → JsValue → List (String × JsValue)
  | [], k, v => [(k, v)]
  | (k', v') :: rest, k, v =>
    if k' = k then (k, v) :: rest else (k', v') :: objSet rest k v

/-- JS property read `obj[key]`: the stored value, or `undefined`. -/
def objGet (m : List (String × JsValue)) (k : String) : JsValue :=
  match m.find? (fun kv => kv.1 = k) with
  | some kv => kv.2
  | none => .undefined

/-- src/index.js lines 35-43, `parse10KResponseHeader`: strip the characters
`\x7b`, `\x7d` and `:` (the `replace(/[{}:]/g, '')`), split on `", "`, split
each fragment on `"=>"`, and reduce into an object, coercing each value with
`Number` and keeping the raw value (string, or `undefined` when the fragment
had no `=>` part) whenever that coercion yields NaN. -/
def parse10KResponseHeader (responseHeader : String) : List (String × JsValue) :=
  ((jsSplit
      ((responseHeader.data.filter
          (fun c => !(c = '\x7b' || c = '\x7d' || c = ':'))).asString)
      ',' ' ').map
    (fun kvString => jsSplit kvString '=' '>')).foldl
    (fun accumulator kv =>
      let key := kv.headD ""
      let value := kv[1]?
      match jsNumber value with
      | some numberValue => objSet accumulator key (.num numberValue)
      | none =>
        objSet accumulator key (match value with | some s => .str s | none => .undefined))
    []

/-- JS numeric coercion of a stored header value, as applied by
`rateInfo.period * 1000 / rateInfo.limit` (src/index.js line 89): numbers
pass through, strings re-coerce via `Number`, `undefined` is NaN. -/
def jsValueToNumber : JsValue → Option ℚ
  | .num q => some q
  | .str s => jsNumber (some s)
  | .undefined => none

/-- src/index.js line 89: `(rateInfo.period * 1000) / rateInfo.limit`, the
advisory spacing between requests.  `none` models a non-finite result (NaN
from a missing or non-numeric field, Infinity from a zero limit). -/
def computeDelayMs (rateInfo : List (String × JsValue)) : Option ℚ :=
  match jsValueToNumber (objGet rateInfo "period"),
        jsValueToNumber (objGet rateInfo "limit") with
  | some p, some l => if l = 0 then none else some (p * 1000 / l)
  | _, _ => none

/-- Effective duration of `sleep(d)` (promisified `setTimeout`): Node clamps
non-finite and non-positive delays to an immediate (≈0 ms) timeout, so a NaN
advisory delay degrades to no delay at all. -/
def effectiveSleepMs : Option ℚ → ℚ
  | none => 0
  | some d => if d < 0 then 0 else d

/-- UTC calendar components of a JS `Date`, as read by the `getUTC*`
accessors: `getUTCFullYear`, `getUTCMonth` (the zero-based month index,
0 = January .. 11 = December), `getUTCDate` (the day of the month). -/
structure JsDate where
  getUTCFullYear : Nat
  getUTCMonth : Nat
  getUTCDate : Nat
  deriving DecidableEq, Repr

/-- Literal year / month / day digits of an ISO-8601 string that denotes a
UTC instant: `YYYY-MM-DD`, either alone or followed by a time part ending
in `Z`.  Timestamps carrying a non-UTC offset (whose UTC calendar day can
differ from the literal digits) are outside the modelled domain. -/
def parseIsoUtc : List Char → Option (Nat × Nat × Nat)
  | y1 :: y2 :: y3 :: y4 :: '-' :: m1 :: m2 :: '-' :: d1 :: d2 :: rest =>
    if [y1, y2, y3, y4, m1, m2, d1, d2].all isDigitChar &&
        (rest.isEmpty || rest.getLast? = some 'Z') then
      some (digitsToNat [y1, y2, y3, y4], digitsToNat [m1, m2], digitsToNat [d1, d2])
    else none
  | _ => none

/-- `new Date(isoDateString)` for ISO strings denoting UTC instants: the
UTC components are the literal year, the literal one-based month minus one
(JS `getUTCMonth` is zero-based), and the literal day.  `none` models an
out-of-domain string (an invalid JS date). -/
def jsNewDate (isoDateString : String) : Option JsDate :=
  (parseIsoUtc isoDateString.data).map
    (fun ymd => ⟨ymd.1, ymd.2.1 - 1, ymd.2.2⟩)

/-- src/index.js lines 30-33, `isoTo10KDate`: the template string
interpolating `getUTCFullYear()`, `getUTCMonth()` and `getUTCDate()` of the
parsed date, separated by hyphens — the month component is the zero-based
JS month index, not the calendar month number. -/
def isoTo10KDate (isoDateString : String) : Option String :=
  (jsNewDate isoDateString).map
    (fun date =>
      toString date.getUTCFullYear ++ "-" ++ toString date.getUTCMonth ++ "-" ++
        toString date.getUTCDate)

/-- src/index.js lines 102-104: `msToReset = resetUnixTime - nowUnixTime`,
computed with no lower clamp — the value handed to `sleep` is negative
whenever the advertised reset instant already passed. -/
def msToReset (resetUnixTime nowUnixTime : Int) : Int :=
  resetUnixTime - nowUnixTime

/-- src/index.js line 27: the default ticket pattern. -/
def defaultTicketPattern : String := "[A-Z]+-\\d+"

/-- Scanner state for the global-match scan of the default ticket pattern
`[A-Z]+-\d+`: outside any candidate, inside the `[A-Z]+` run, just past the
`-`, or inside the `\d+` run (letter and digit runs held reversed). -/
inductive ScanState where
  | outside
  | letters (revLetters : List Char)
  | afterDash (revLetters : List Char)
  | digits (revLetters : List Char) (revDigits : List Char)
  deriving DecidableEq, Repr

/-- Left-to-right scan implementing JS `notes.match(/[A-Z]+-\d+/g)`: the
non-overlapping, leftmost matches of the default ticket pattern, each with
a maximal letter run, the hyphen, and a maximal digit run.  A candidate
that fails (no hyphen after the letters, or no digit after the hyphen) is
abandoned and the scan continues at the failing character, exactly as the
regex engine's retry at successive start positions does for this
pattern. -/
def scanDefault : List Char → ScanState → List String
  | [], state =>
    match state with
    | .digits revLetters revDigits =>
      [(revLetters.reverse ++ '-' :: revDigits.reverse).asString]
    | _ => []
  | c :: cs, state =>
    match state with
    | .outside =>
      scanDefault cs (if isUpperChar c then .letters [c] else .outside)
    | .letters revLetters =>
      if isUpperChar c then scanDefault cs (.letters (c :: revLetters))
      else if c = '-' then scanDefault cs (.afterDash revLetters)
      else scanDefault cs .outside
    | .afterDash revLetters =>
      if isDigitChar c then scanDefault cs (.digits revLetters [c])
      else scanDefault cs (if isUpperChar c then .letters [c] else .outside)
    | .digits revLetters revDigits =>
      if isDigitChar c then scanDefault cs (.digits revLetters (c :: revDigits))
      else
        (revLetters.reverse ++ '-' :: revDigits.reverse).asString ::
          scanDefault cs (if isUpperChar c then .letters [c] else .outside)

/-- JS `notes.match(ticketRegExp) || []` for the default ticket pattern
(src/index.js lines 136 and 141 with `defaultTicketPattern`): a `null`
result (no match) and an empty match list coincide as `[]`. -/
def defaultTicketMatchAll (notes : String) : List String :=
  scanDefault notes.data .outside

/-- One aggregate output row (src/index.js lines 150-153): the matched
ticket identifier and the accumulated hours. -/
structure TicketStat where
  ticket : String
  hours : ℚ
  deriving DecidableEq, Repr

/-- The per-match update inside `analyzeTimeEntries` (src/index.js lines
142-155): `find` the existing row whose `ticket` equals the match and add
`hours` to it in place, else `push` a fresh row at the end. -/
def accumulateTicket : List TicketStat → String → ℚ → List TicketStat
  | [], ticket, hours => [⟨ticket, hours⟩]
  | stat :: rest, ticket, hours =>
    if stat.ticket = ticket then ⟨stat.ticket, stat.hours + hours⟩ :: rest
    else stat :: accumulateTicket rest ticket hours

/-- src/index.js lines 135-160, `analyzeTimeEntries`, parameterized by the
compiled global regex's find-all function `matchAll` (the model of
`new RegExp(ticketPattern, 'g')` applied via `notes.match`): reduce over
the entries, and for each pattern match in an entry's notes (absent notes
read as `''`) add that entry's full `hours` to the matched ticket's row. -/
def analyzeTimeEntries (matchAll : String → List String)
    (timeEntries : List TimeEntry) : List TicketStat :=
  timeEntries.foldl
    (fun entryStatAccumulator timeEntry =>
      (matchAll (timeEntry.notes.getD "")).foldl
        (fun accumulator ticket => accumulateTicket accumulator ticket timeEntry.hours)
        entryStatAccumulator)
    []

/-- Result of one page request at the PageFetcher boundary (src/index.js
lines 74-107): a successful response carries the page's entries, the
optional next-page token extracted from `paging.next` (absent on the
terminal page), and the raw `x-ratelimit-data` header; a 429 rejection
carries the numeric value of the reset-time header (`none` models a
missing or non-numeric header, i.e. NaN); any other rejection is a failure
that `getTimeEntries` re-throws. -/
inductive PageResult where
  | success (entries : List TimeEntry) (next : Option String) (rateHeader : String)
  | throttled (resetUnixTime : Option Int)
  | failure
  deriving Repr

/-- How a `getTimeEntries` run ends: a returned entry list, a re-thrown
non-429 error, or (an embedding artifact only) exhaustion of the response
script. -/
inductive CollectOutcome where
  | done (entries : List TimeEntry)
  | failed
  | starved
  deriving DecidableEq, Repr

/-- A `getTimeEntries` run together with its recorded sleeps: the advisory
delays (one per non-terminal successful page, each `computeDelayMs` of the
parsed rate header) and the throttle waits (one per 429, each recording
the raw reset value the wait is computed from). -/
structure CollectTrace where
  outcome : CollectOutcome
  advisoryDelays : List (Option ℚ)
  throttleResets : List (Option Int)
  deriving DecidableEq, Repr

/-- src/index.js lines 45-121, `getTimeEntries`, driven by a script of page
results (one per issued request, in request order — the script stands for
the remote server).  `page` and `entryAccumulator` follow the source's
parameters.  On success the page's entries are concatenated to the
accumulator; a terminal page (no `paging.next`) returns them; otherwise an
advisory sleep is recorded and the tail call proceeds to the next page.
On a 429 the wait is recorded and the tail call retries with `page` and
`entryAccumulator` unchanged (lines 106-107).  Any other error propagates
(line 96).  Sleeps are recorded, not performed. -/
def getTimeEntries : List PageResult → String → List TimeEntry → CollectTrace
  | [], _, _ => ⟨.starved, [], []⟩
  | .success timeEntries none _ :: _, _, entryAccumulator =>
    ⟨.done (entryAccumulator ++ timeEntries), [], []⟩
  | .success timeEntries (some nextPage) rateHeader :: script, _, entryAccumulator =>
    let rest := getTimeEntries script nextPage (entryAccumulator ++ timeEntries)
    ⟨rest.outcome,
      computeDelayMs (parse10KResponseHeader rateHeader) :: rest.advisoryDelays,
      rest.throttleResets⟩
  | .throttled resetUnixTime :: script, page, entryAccumulator =>
    let rest := getTimeEntries script page entryAccumulator
    ⟨rest.outcome, rest.advisoryDelays, resetUnixTime :: rest.throttleResets⟩
  | .failure :: _, _, _ => ⟨.failed, [], []⟩

/-- What `run` produced: the rows written to the CSV (or `none` when no
output file was created at all) and the process exit status. -/
structure RunOutcome where
  writtenCsv : Option (List TicketStat)
  exitCode : Nat
  deriving DecidableEq, Repr

/-- src/index.js lines 213-235, the try/catch of `run`: collect every page
starting from page `"1"` with an empty accumulator; only after the whole
download succeeds are the entries aggregated and the CSV written (exit 0);
any error propagated out of `getTimeEntries` reaches the catch block,
which writes no file and exits with status 1. -/
def runPipeline (script : List PageResult)
    (matchAll : String → List String) : RunOutcome :=
  match (getTimeEntries script "1" []).outcome with
  | .done timeEntries => ⟨some (analyzeTimeEntries matchAll timeEntries), 0⟩
  | _ => ⟨none, 1⟩

/-- src/index.js line 28: the default output file name. -/
def defaultFileName : String := "10kticketstat.csv"

/-- Outcome of the `fs.stat` call in `resolveOutputPath`, at its interface
boundary: a stat record answering `isDirectory()`, or a thrown error (e.g.
the path does not exist yet). -/
inductive StatOutcome where
  | stat (isDirectory : Bool)
  | statError
  deriving DecidableEq, Repr

/-- Node `path.join(dir, fileName)` as used here — a directory path joined
with a bare file name (normalization of other shapes is outside the
modelled domain). -/
def pathJoin (dir fileName : String) : String :=
  if dir.endsWith "/" then dir ++ fileName else dir ++ "/" ++ fileName

/-- src/index.js lines 162-176, `resolveOutputPath`, with `fs.stat` at its
interface boundary: a directory resolves to the default file name joined
onto it, any other existing file to the user's path itself, and a stat
error is swallowed by the catch block, returning the user's path
unchanged. -/
def resolveOutputPath (statResult : StatOutcome) (userOutputPath : String) : String :=
  match statResult with
  | .stat isDirectory =>
    if isDirectory then pathJoin userOutputPath defaultFileName else userOutputPath
  | .statError => userOutputPath

/-! Spec-side observations used to state the claims (not part of the
embedded program). -/

/-- The hours an aggregate reports for ticket `t`: the summed `hours` of
the rows keyed by `t` (a single row once keys are unique). -/
def ticketHours (stats : List TicketStat) (t : String) : ℚ :=
  ((stats.filter (fun stat => stat.ticket = t)).map TicketStat.hours).sum

/-- Insert a ticket into a key list unless already present (the shape of a
first-seen ordered key set). -/
def insertTicket (keys : List String) (t : String) : List String :=
  if t ∈ keys then keys else keys ++ [t]

/-- The distinct elements of `l` in order of first occurrence. -/
def firstOccurrences (l : List String) : List String :=
  l.foldl insertTicket []

/-- Every pattern match of every entry's notes, in entry order (absent
notes contribute nothing). -/
def allMatches (matchAll : String → List String) : List TimeEntry → List String
  | [] => []
  | timeEntry :: rest => matchAll (timeEntry.notes.getD "") ++ allMatches matchAll rest

/-- Whether a page result lets `getTimeEntries` issue a further request: a
successful page with a next link, or a 429 (which retries). -/
def reachesNextRequest : PageResult → Bool
  | .success _ (some _) _ => true
  | .throttled _ => true
  | _ => false

/-! Helper lemmas. -/

/-- An empty aggregate reports zero hours for every ticket. -/
theorem ticketHours_nil (t : String) : ticketHours [] t = 0 := rfl

/-- Unfolding `ticketHours` over a leading row. -/
theorem ticketHours_cons (stat : TicketStat) (rest : List TicketStat) (t : String) :
    ticketHours (stat :: rest) t =
      (if stat.ticket = t then stat.hours else 0) + ticketHours rest t := by
  by_cases h : stat.ticket = t <;> simp [ticketHours, h]

/-- One `accumulateTicket` step adds its hours to exactly the matched
ticket's total. -/
theorem ticketHours_accumulateTicket (acc : List TicketStat) (t' : String) (q : ℚ)
    (t : String) :
    ticketHours (accumulateTicket acc t' q) t =
      ticketHours acc t + if t' = t then q else 0 := by
  induction acc with
  | nil =>
    by_cases ht : t' = t <;> simp [accumulateTicket, ticketHours, ht]
  | cons stat rest ih =>
    by_cases hst : stat.ticket = t'
    · by_cases ht : t' = t <;>
        (simp [accumulateTicket, hst, ticketHours_cons, ht]; try ring)
    · simp only [accumulateTicket, if_neg hst, ticketHours_cons, ih]
      ring

/-- Folding one entry's match list adds its hours once per occurrence of
each ticket. -/
theorem ticketHours_foldl_accumulate (q : ℚ) (t : String) :
    ∀ (ts : List String) (acc : List TicketStat),
      ticketHours (ts.foldl (fun a x => accumulateTicket a x q) acc) t =
        ticketHours acc t + q * (ts.count t : ℚ) := by
  intro ts
  induction ts with
  | nil => intro acc; simp
  | cons x ts ih =>
    intro acc
    simp only [List.foldl_cons, ih, ticketHours_accumulateTicket, List.count_cons]
    by_cases hx : x = t
    · subst hx
      simp only [if_pos rfl, beq_self_eq_true, if_true]
      push_cast
      ring
    · have hx' : (x == t) = false := beq_eq_false_iff_ne.mpr hx
      simp only [if_neg hx, hx', Bool.false_eq_true, if_false]
      push_cast
      ring

/-- The per-ticket total of the entry fold, for an arbitrary starting
accumulator. -/
theorem ticketHours_analyze_aux (matchAll : String → List String) (t : String) :
    ∀ (timeEntries : List TimeEntry) (acc : List TicketStat),
      ticketHours
          (timeEntries.foldl
            (fun entryStatAccumulator timeEntry =>
              (matchAll (timeEntry.notes.getD "")).foldl
                (fun accumulator ticket =>
                  accumulateTicket accumulator ticket timeEntry.hours)
                entryStatAccumulator)
            acc) t =
        ticketHours acc t +
          (timeEntries.map
            (fun e => e.hours * ((matchAll (e.notes.getD "")).count t : ℚ))).sum := by
  intro timeEntries
  induction timeEntries with
  | nil => intro acc; simp
  | cons e es ih =>
    intro acc
    simp only [List.foldl_cons, ih, ticketHours_foldl_accumulate, List.map_cons,
      List.sum_cons]
    ring

/-- `accumulateTicket` affects the key list exactly as a first-seen
insertion does. -/
theorem map_ticket_accumulateTicket (acc : List TicketStat) (t : String) (q : ℚ) :
    (accumulateTicket acc t q).map TicketStat.ticket =
      insertTicket (acc.map TicketStat.ticket) t := by
  induction acc with
  | nil => simp [accumulateTicket, insertTicket]
  | cons stat rest ih =>
    by_cases hst : stat.ticket = t
    · simp [accumulateTicket, hst, insertTicket]
    · have hts : ¬(t = stat.ticket) := fun h => hst h.symm
      simp [accumulateTicket, hst, ih, insertTicket, hts]
      by_cases hm : ∃ a ∈ rest, a.ticket = t <;> simp [hm]

/-- Key-list view of the fold over one entry's match list. -/
theorem map_ticket_foldl_accumulate (q : ℚ) :
    ∀ (ts : List String) (acc : List TicketStat),
      ((ts.foldl (fun a x => accumulateTicket a x q) acc).map TicketStat.ticket) =
        ts.foldl insertTicket (acc.map TicketStat.ticket) := by
  intro ts
  induction ts with
  | nil => intro acc; rfl
  | cons x ts ih =>
    intro acc
    simp only [List.foldl_cons, ih, map_ticket_accumulateTicket]

/-- Key-list view of the whole entry fold: first-seen insertion over all
matches in order. -/
theorem map_ticket_analyze_aux (matchAll : String → List String) :
    ∀ (timeEntries : List TimeEntry) (acc : List TicketStat),
      ((timeEntries.foldl
          (fun entryStatAccumulator timeEntry =>
            (matchAll (timeEntry.notes.getD "")).foldl
              (fun accumulator ticket =>
                accumulateTicket accumulator ticket timeEntry.hours)
              entryStatAccumulator)
          acc).map TicketStat.ticket) =
        (allMatches matchAll timeEntries).foldl insertTicket
          (acc.map TicketStat.ticket) := by
  intro timeEntries
  induction timeEntries with
  | nil => intro acc; rfl
  | cons e es ih =>
    intro acc
    simp only [List.foldl_cons, ih, map_ticket_foldl_accumulate, allMatches,
      List.foldl_append]

/-- First-seen insertion preserves distinctness of the key list. -/
theorem nodup_foldl_insertTicket :
    ∀ (l : List String) (acc : List String),
      acc.Nodup → (l.foldl insertTicket acc).Nodup := by
  intro l
  induction l with
  | nil => exact fun acc h => h
  | cons x l ih =>
    intro acc hacc
    refine ih _ ?_
    by_cases hx : x ∈ acc
    · simpa [insertTicket, hx] using hacc
    · simp [insertTicket, hx, List.nodup_append, hacc]

/-- `getTimeEntries` hits a `failure` placed after a prefix of results that
each lead to a further request, and propagates it. -/
theorem getTimeEntries_failure_reached :
    ∀ (pre : List PageResult) (rest : List PageResult) (page : String)
      (entryAccumulator : List TimeEntry),
      pre.all reachesNextRequest = true →
      (getTimeEntries (pre ++ .failure :: rest) page entryAccumulator).outcome =
        .failed := by
  intro pre
  induction pre with
  | nil => intro rest page acc _; simp [getTimeEntries]
  | cons head tail ih =>
    intro rest page acc hall
    simp only [List.all_cons, Bool.and_eq_true] at hall
    cases head with
    | success es next hdr =>
      cases next with
      | none => simp [reachesNextRequest] at hall
      | some nextPage => simp [getTimeEntries, ih _ _ _ hall.2]
    | throttled r' => simp [getTimeEntries, ih _ _ _ hall.2]
    | failure => simp [reachesNextRequest] at hall

/-! The claims. -/

/-- Claim C1: a 429 rejection makes `getTimeEntries` retry the same page
with the accumulation buffer unchanged, so whatever the position of the
throttling event in the request/response history, the run's outcome (the
returned entry sequence, or the propagated error) is exactly what it would
have been had that page succeeded on the first attempt — no entry dropped,
none double-counted. -/
theorem claim_C1_throttle_retry_preserves_entries :
    ∀ (pre : List PageResult) (resetUnixTime : Option Int) (rest : List PageResult)
      (page : String) (entryAccumulator : List TimeEntry),
      (getTimeEntries (pre ++ .throttled resetUnixTime :: rest)
          page entryAccumulator).outcome =
        (getTimeEntries (pre ++ rest) page entryAccumulator).outcome := by
  intro pre r rest
  induction pre with
  | nil => intro page acc; simp [getTimeEntries]
  | cons head tail ih =>
    intro page acc
    cases head with
    | success es next hdr =>
      cases next with
      | none => simp [getTimeEntries]
      | some nextPage => simp [getTimeEntries, ih]
    | throttled r' => simp [getTimeEntries, ih]
    | failure => simp [getTimeEntries]

/-- Claim C2: three consecutive successful pages (1 → next, 2 → next,
3 → terminal) return exactly the concatenation of the three pages' entries
in page order, with exactly two advisory delays recorded (after pages 1
and 2, none after the terminal page) and zero throttling waits. -/
theorem claim_C2_three_pages_concat_two_delays_no_waits :
    ∀ (e1 e2 e3 : List TimeEntry) (h1 h2 h3 : String) (p2 p3 : String),
      getTimeEntries
          [.success e1 (some p2) h1, .success e2 (some p3) h2, .success e3 none h3]
          "1" [] =
        ⟨.done (e1 ++ e2 ++ e3),
          [computeDelayMs (parse10KResponseHeader h1),
            computeDelayMs (parse10KResponseHeader h2)],
          []⟩ := by
  intro e1 e2 e3 h1 h2 h3 p2 p3
  simp [getTimeEntries]

/-- Claim C3: a non-429 failure at any reached request makes
`getTimeEntries` propagate the error — the run returns no entries, the
aggregation/CSV step never executes (no output file, not even partial),
and the process exits with status 1. -/
theorem claim_C3_nonthrottle_error_aborts_run :
    ∀ (pre rest : List PageResult) (matchAll : String → List String),
      pre.all reachesNextRequest = true →
      (getTimeEntries (pre ++ .failure :: rest) "1" []).outcome = .failed ∧
        runPipeline (pre ++ .failure :: rest) matchAll = ⟨none, 1⟩ := by
  intro pre rest matchAll hall
  have hfail := getTimeEntries_failure_reached pre rest "1" [] hall
  refine ⟨hfail, ?_⟩
  unfold runPipeline
  rw [hfail]

/-- Witness for claim C3: page 1 succeeds with a next link, the request
for page 2 fails; the run aborts with no output file and exit status 1. -/
theorem claim_C3_witness :
    ([PageResult.success [] (some "2") "h"].all reachesNextRequest = true) ∧
    (getTimeEntries
        ([PageResult.success [] (some "2") "h"] ++ .failure :: []) "1" []).outcome =
        .failed ∧
      runPipeline ([PageResult.success [] (some "2") "h"] ++ .failure :: [])
          (fun _ => []) = ⟨none, 1⟩ :=
  ⟨by decide,
   claim_C3_nonthrottle_error_aborts_run [.success [] (some "2") "h"] [] (fun _ => [])
     (by decide)⟩

/-- Claim C4: the well-formed advisory header parses to numeric period 60
and limit 100, and the advisory delay (period × 1000) / limit computed
from it is 600 ms. -/
theorem claim_C4_wellformed_advisory_header_and_delay :
    parse10KResponseHeader "\x7bperiod=>60, limit=>100\x7d" =
      [("period", .num 60), ("limit", .num 100)] ∧
    computeDelayMs (parse10KResponseHeader "\x7bperiod=>60, limit=>100\x7d") =
      some 600 := by
  have h : parse10KResponseHeader "\x7bperiod=>60, limit=>100\x7d" =
      [("period", .num 60), ("limit", .num 100)] := by decide
  refine ⟨h, ?_⟩
  rw [h]
  norm_num +decide [computeDelayMs, objGet, jsValueToNumber, List.find?]

/-- Counterexample to claim C5 as stated: on the unrecognized header
`"garbage"` the parser does not return an empty mapping — it stores a junk
key with an undefined value. -/
theorem claim_C5_counterexample_nonempty_mapping :
    parse10KResponseHeader "garbage" ≠ [] := by decide

/-- Claim C5 (amended): the parser never raises, but on an unrecognized
header it returns a mapping that need not be empty — it merely lacks
numeric `period`/`limit` fields; whenever either field is missing or
non-numeric, the computed advisory delay is non-finite and the caller's
sleep degrades to a zero delay rather than failing. -/
theorem claim_C5_amended_unrecognized_header_degrades :
    ∀ h : String,
      jsValueToNumber (objGet (parse10KResponseHeader h) "period") = none ∨
        jsValueToNumber (objGet (parse10KResponseHeader h) "limit") = none →
      computeDelayMs (parse10KResponseHeader h) = none ∧
        effectiveSleepMs (computeDelayMs (parse10KResponseHeader h)) = 0 := by
  intro h hmiss
  have hdelay : computeDelayMs (parse10KResponseHeader h) = none := by
    unfold computeDelayMs
    rcases hmiss with hm | hm <;> rw [hm]
    cases jsValueToNumber (objGet (parse10KResponseHeader h) "period") <;> rfl
  exact ⟨hdelay, by rw [hdelay]; rfl⟩

/-- Witness for claim C5 (amended), at the unrecognized header
`"garbage"`. -/
theorem claim_C5_amended_witness :
    (jsValueToNumber (objGet (parse10KResponseHeader "garbage") "period") = none ∨
      jsValueToNumber (objGet (parse10KResponseHeader "garbage") "limit") = none) ∧
    computeDelayMs (parse10KResponseHeader "garbage") = none ∧
      effectiveSleepMs (computeDelayMs (parse10KResponseHeader "garbage")) = 0 :=
  ⟨Or.inl (by decide),
   claim_C5_amended_unrecognized_header_degrades "garbage" (Or.inl (by decide))⟩

/-- Counterexample to claim C6 as stated: with reset time 100 and current
time 200 the code computes −100, not max(0, resetAtUnixMs − now) = 0 — the
wait handed to `sleep` is negative. -/
theorem claim_C6_counterexample_negative_wait :
    msToReset 100 200 = -100 ∧ msToReset 100 200 ≠ max 0 (100 - 200 : Int) := by
  decide

/-- Claim C6 (amended): the recovery wait the collector computes is the
unclamped difference resetAtUnixMs − now, which is negative whenever the
reset instant has already passed; the clamping to max(0, ·) happens only
inside `sleep` itself, whose effective duration does equal
max(0, resetAtUnixMs − now). -/
theorem claim_C6_amended_wait_is_unclamped_difference :
    ∀ resetUnixTime nowUnixTime : Int,
      msToReset resetUnixTime nowUnixTime = resetUnixTime - nowUnixTime ∧
      effectiveSleepMs (some ((msToReset resetUnixTime nowUnixTime : Int) : ℚ)) =
        max 0 ((resetUnixTime : ℚ) - (nowUnixTime : ℚ)) ∧
      (nowUnixTime ≤ resetUnixTime →
        msToReset resetUnixTime nowUnixTime =
          max 0 (resetUnixTime - nowUnixTime)) ∧
      (resetUnixTime < nowUnixTime → msToReset resetUnixTime nowUnixTime < 0) := by
  intro r n
  refine ⟨rfl, ?_, fun hle => ?_, fun hlt => ?_⟩
  · have hcast : ((msToReset r n : Int) : ℚ) = (r : ℚ) - (n : ℚ) := by
      simp [msToReset]
    rw [effectiveSleepMs, hcast]
    rcases lt_or_le ((r : ℚ) - (n : ℚ)) 0 with hneg | hpos
    · simp [hneg, max_eq_left hneg.le]
    · simp [not_lt.mpr hpos, max_eq_right hpos]
  · simp only [msToReset]
    omega
  · simp only [msToReset]
    omega

/-- Witness for claim C6 (amended): a future reset (300 vs now 100) waits
the clamped difference; a past reset (100 vs now 200) yields a negative
wait. -/
theorem claim_C6_amended_witness :
    msToReset 300 100 = max 0 (300 - 100 : Int) ∧ msToReset 100 200 < 0 :=
  ⟨(claim_C6_amended_wait_is_unclamped_difference 300 100).2.2.1 (by omega),
   (claim_C6_amended_wait_is_unclamped_difference 100 200).2.2.2 (by omega)⟩

/-- Claim C7: for every ISO timestamp in the modelled (UTC) domain, the
`from`/`to` query value is `Y-M-D` with Y the UTC year, M the zero-based
UTC month index (calendar month minus one: January 0, December 11), and D
the UTC day of month. -/
theorem claim_C7_query_date_uses_zero_based_month :
    ∀ (s : String) (y m d : Nat),
      parseIsoUtc s.data = some (y, m, d) →
      isoTo10KDate s =
        some (toString y ++ "-" ++ toString (m - 1) ++ "-" ++ toString d) := by
  intro s y m d hparse
  simp [isoTo10KDate, jsNewDate, hparse]

/-- Witness for claim C7: December 25, 2020 becomes `2020-11-25`. -/
theorem claim_C7_witness :
    parseIsoUtc ("2020-12-25T00:00:00.000Z").data = some (2020, 12, 25) ∧
    isoTo10KDate "2020-12-25T00:00:00.000Z" =
      some (toString 2020 ++ "-" ++ toString (12 - 1) ++ "-" ++ toString 25) :=
  ⟨by decide, claim_C7_query_date_uses_zero_based_month _ 2020 12 25 (by decide)⟩

/-- Claim C8: for every matcher and entry list, the hours reported for a
ticket equal the sum over all entries of the entry's full hours times the
number of occurrences of that ticket among the entry's matches (absent
notes contribute nothing); in particular the two concrete aggregations of
the claim hold, duplicate occurrences within one entry counting twice. -/
theorem claim_C8_hours_weighted_by_occurrences :
    (∀ (matchAll : String → List String) (timeEntries : List TimeEntry) (t : String),
      ticketHours (analyzeTimeEntries matchAll timeEntries) t =
        (timeEntries.map
          (fun e => e.hours * ((matchAll (e.notes.getD "")).count t : ℚ))).sum) ∧
    analyzeTimeEntries defaultTicketMatchAll
        [⟨2, some "fix ABC-1"⟩, ⟨3, some "ABC-1 and ABC-2"⟩] =
      [⟨"ABC-1", 5⟩, ⟨"ABC-2", 3⟩] ∧
    analyzeTimeEntries defaultTicketMatchAll [⟨1, some "ABC-1 ABC-1"⟩] =
      [⟨"ABC-1", 2⟩] := by
  refine ⟨fun matchAll timeEntries t => ?_, ?_, ?_⟩
  · simpa [analyzeTimeEntries, ticketHours_nil] using
      ticketHours_analyze_aux matchAll t timeEntries []
  · have m1 : defaultTicketMatchAll "fix ABC-1" = ["ABC-1"] := by decide
    have m2 : defaultTicketMatchAll "ABC-1 and ABC-2" = ["ABC-1", "ABC-2"] := by
      decide
    simp [analyzeTimeEntries, m1, m2, accumulateTicket]
    norm_num
  · have m : defaultTicketMatchAll "ABC-1 ABC-1" = ["ABC-1", "ABC-1"] := by decide
    simp [analyzeTimeEntries, m, accumulateTicket]
    norm_num

/-- Claim C9: for every matcher and entry list the aggregate contains each
matched ticket exactly once (its key list is duplicate-free), and the rows
appear in order of each ticket's first occurrence across the full entry
sequence. -/
theorem claim_C9_unique_keys_in_first_seen_order :
    ∀ (matchAll : String → List String) (timeEntries : List TimeEntry),
      ((analyzeTimeEntries matchAll timeEntries).map TicketStat.ticket).Nodup ∧
      (analyzeTimeEntries matchAll timeEntries).map TicketStat.ticket =
        firstOccurrences (allMatches matchAll timeEntries) := by
  intro matchAll timeEntries
  have heq : (analyzeTimeEntries matchAll timeEntries).map TicketStat.ticket =
      firstOccurrences (allMatches matchAll timeEntries) := by
    simpa [analyzeTimeEntries, firstOccurrences] using
      map_ticket_analyze_aux matchAll timeEntries []
  refine ⟨?_, heq⟩
  rw [heq]
  exact nodup_foldl_insertTicket _ [] List.nodup_nil

/-- Claim C10: resolving the output path is total; an existing directory
resolves to the default file name joined onto it, an existing
non-directory to the path unchanged, and a stat error (e.g. a
not-yet-existing path) also to the path unchanged. -/
theorem claim_C10_resolve_output_path_total_behavior :
    ∀ (statResult : StatOutcome) (userOutputPath : String),
      (statResult = .stat true →
        resolveOutputPath statResult userOutputPath =
          pathJoin userOutputPath defaultFileName) ∧
      (statResult = .stat false →
        resolveOutputPath statResult userOutputPath = userOutputPath) ∧
      (statResult = .statError →
        resolveOutputPath statResult userOutputPath = userOutputPath) := by
  intro statResult p
  refine ⟨fun h => ?_, fun h => ?_, fun h => ?_⟩ <;> subst h <;>
    simp [resolveOutputPath]

/-- Witness for claim C10, at a directory, a plain file, and a missing
path. -/
theorem claim_C10_witness :
    resolveOutputPath (.stat true) "out" = pathJoin "out" defaultFileName ∧
    resolveOutputPath (.stat false) "out.csv" = "out.csv" ∧
    resolveOutputPath .statError "missing/out.csv" = "missing/out.csv" :=
  ⟨(claim_C10_resolve_output_path_total_behavior (.stat true) "out").1 rfl,
   (claim_C10_resolve_output_path_total_behavior (.stat false) "out.csv").2.1 rfl,
   (claim_C10_resolve_output_path_total_behavior .statError "missing/out.csv").2.2
     rfl⟩

end TenK
